import Mathlib

/-!
Shallow embedding of the typed-object evaluation core of drgn (the
`Program` / `ProgramObject` evaluator).  The evaluator implementation
itself is not part of the source slice (only its tests in
`tests/test_program.py` and a helper client are), so the definitions
below are modelled from the specification, faithful to its words, and
checked against the concrete expectations recorded in the tests.
-/

namespace Drgn

/-- Modelled from the spec: the distinct error kinds of §7 (the evaluator
implementation is missing from the source slice). -/
inductive Err where
  | typeMismatch
  | unknownMember
  | incompleteType
  | unboundedIteration
  | addressNotMapped
  | divideByZero
  | invalidConstruction
  | noAddress
  deriving Repr, DecidableEq

mutual

/-- Modelled from the spec: the C type sum of §3 (integer, floating,
boolean, pointer, array, struct, typedef); struct members are
(name, byte offset, type).  Qualifiers are dropped from the model since
they are ignored for arithmetic. -/
inductive CType where
  | int (name : String) (size : Nat) (signed : Bool)
  | bool
  | float (name : String) (size : Nat)
  | pointer (referent : CType)
  | array (elem : CType) (length : Option Nat)
  | struct (name : String) (size : Nat) (members : Members)
  | typedef (name : String) (t : CType)
  | void
  deriving Repr, DecidableEq

/-- The ordered member list of a struct/union: each member is
(name, byte offset, type). -/
inductive Members where
  | nil
  | cons (name : String) (offset : Nat) (t : CType) (rest : Members)
  deriving Repr, DecidableEq

end

namespace CType

/-- Modelled from the spec: `strip` removes typedef layers, returning the
underlying type. -/
def strip : CType → CType
  | typedef _ t => strip t
  | t => t

/-- Modelled from the spec: byte size of a type; fails (`none`) on
unknown-length arrays and `void`. -/
def sizeOf : CType → Option Nat
  | int _ s _ => some s
  | bool => some 1
  | float _ s => some s
  | pointer _ => some 8
  | array t (some n) => (sizeOf t).map (· * n)
  | array _ none => none
  | struct _ s _ => some s
  | typedef _ t => sizeOf t
  | void => none

end CType

/-- The concrete `TYPES` of the test type index: `int`. -/
def intT : CType := .int "int" 4 true

/-- `unsigned int`. -/
def uintT : CType := .int "unsigned int" 4 false

/-- `long`. -/
def longT : CType := .int "long" 8 true

/-- `unsigned long`. -/
def ulongT : CType := .int "unsigned long" 8 false

/-- `char`. -/
def charT : CType := .int "char" 1 true

/-- `ptrdiff_t`. -/
def ptrdiffT : CType := .int "ptrdiff_t" 8 true

/-- `double`. -/
def doubleT : CType := .float "double" 8

/-- The `struct point { int x; int y; }` used by the tests. -/
def pointT : CType :=
  .struct "point" 8 (.cons "x" 0 intT (.cons "y" 4 intT .nil))

/-! ## Integer representation -/

/-- Reduce an integer modulo `2^w` into `[0, 2^w)`. -/
def wrap (w : Nat) (v : Int) : Int := v % ((2:Int)^w)

/-- Reinterpret the residue modulo `2^w` as a `w`-bit two's-complement
signed value in `[-2^(w-1), 2^(w-1))`. -/
def toSigned (w : Nat) (v : Int) : Int :=
  if wrap w v < (2:Int)^(w-1) then wrap w v else wrap w v - (2:Int)^w

/-- Modelled from the spec: value objects normalize integers by reducing
modulo `2^width` then reinterpreting per the type's signedness. -/
def normalizeInt (size : Nat) (signed : Bool) (v : Int) : Int :=
  if signed then toSigned (8 * size) v else wrap (8 * size) v

/-! ## Values and program objects -/

/-- Modelled from the spec: a synthesized scalar value carried by a value
object (integer bits for integer/boolean/pointer types, a rational
stand-in for a floating value). -/
inductive CValue where
  | int (v : Int)
  | float (v : Rat)
  deriving Repr, DecidableEq

/-- Modelled from the spec: a program object is a typed reference object
(an address in the image) or a typed value object (a synthesized value,
no address). -/
structure ProgramObject where
  type_ : CType
  address_ : Option Nat
  value? : Option CValue
  deriving Repr, DecidableEq

/-- Modelled from the spec: the core reader's address map, a list of
segments (virtual start, bytes). -/
def Memory := List (Nat × List Nat)

/-- Read the single byte at address `a`, `none` when unmapped. -/
def readByte? : Memory → Nat → Option Nat
  | [], _ => none
  | (start, bytes) :: rest, a =>
    if start ≤ a ∧ a < start + bytes.length then bytes.get? (a - start)
    else readByte? rest a

/-- Read `len` consecutive bytes starting at `a`. -/
def readBytes (m : Memory) (a len : Nat) : Option (List Nat) :=
  (List.range len).mapM (fun i => readByte? m (a + i))

/-- Total number of mapped bytes, used as recursion fuel for C strings. -/
def memorySize (m : Memory) : Nat := (m.map (·.2.length)).sum

/-- Read bytes from `a` up to (excluding) the first NUL, with explicit
fuel; `none` when a byte is unmapped or no NUL is found in `fuel` bytes. -/
def readCStringFuel : Nat → Memory → Nat → Option (List Nat)
  | 0, _, _ => none
  | fuel+1, m, a =>
    match readByte? m a with
    | none => none
    | some 0 => some []
    | some b => (readCStringFuel fuel m (a+1)).map (b :: ·)

/-- Modelled from the spec: `read_c_string` — the NUL-terminated byte
string at `a` (bytes beyond NUL elided). -/
def readCString (m : Memory) (a : Nat) : Option (List Nat) :=
  readCStringFuel (memorySize m + 1) m a

/-- Little-endian decode of a byte list. -/
def decodeLE : List Nat → Nat
  | [] => 0
  | b :: rest => b % 256 + 256 * decodeLE rest

/-- The test image: bytes `01 00 00 00 02 00 00 00 68 65 6c 6c 6f 00 00 00`
at `0xffff0000`, little-endian. -/
def testMemory : Memory :=
  [(0xffff0000, [1, 0, 0, 0, 2, 0, 0, 0,
                 0x68, 0x65, 0x6c, 0x6c, 0x6f, 0, 0, 0])]

/-! ## Construction and value access -/

/-- Modelled from the spec: value objects normalize the value into the
type's representation — integers are reduced modulo `2^width` then
reinterpreted signed/unsigned; pointer values are unsigned 64-bit;
booleans are 0/1 valued. -/
def normalizeValue (t : CType) (v : CValue) : Except Err CValue :=
  match t.strip, v with
  | .int _ size signed, .int n => .ok (.int (normalizeInt size signed n))
  | .bool, .int n => .ok (.int (if n == 0 then 0 else 1))
  | .pointer _, .int n => .ok (.int (wrap 64 n))
  | .float _ _, .float q => .ok (.float q)
  | .float _ _, .int n => .ok (.float n)
  | _, _ => .error .typeMismatch

/-- Modelled from the spec: `Program.object(type, address, value)` —
exactly one of address and value is provided; value objects are
normalized. -/
def makeObject (t : CType) (address : Option Nat) (value : Option CValue) :
    Except Err ProgramObject :=
  match address, value with
  | some a, none => .ok ⟨t, some a, none⟩
  | none, some v => (normalizeValue t v).map (fun v => ⟨t, none, some v⟩)
  | _, _ => .error .invalidConstruction

/-- Modelled from the spec: `value_()` on scalar objects — a value object
returns its stored value; a scalar reference object loads little-endian
bytes through the reader and reinterprets them per the type. -/
def value_ (m : Memory) (o : ProgramObject) : Except Err CValue :=
  match o.value? with
  | some v => .ok v
  | none =>
    match o.address_ with
    | none => .error .invalidConstruction
    | some a =>
      match o.type_.strip with
      | .int _ size signed =>
        match readBytes m a size with
        | some bs => .ok (.int (normalizeInt size signed (decodeLE bs)))
        | none => .error .addressNotMapped
      | .bool =>
        match readBytes m a 1 with
        | some bs => .ok (.int (if decodeLE bs == 0 then 0 else 1))
        | none => .error .addressNotMapped
      | .pointer _ =>
        match readBytes m a 8 with
        | some bs => .ok (.int (decodeLE bs))
        | none => .error .addressNotMapped
      | _ => .error .typeMismatch

/-- Truncation toward zero of a rational, C's float→integer conversion. -/
def ratTrunc (q : Rat) : Int := if q < 0 then ⌈q⌉ else ⌊q⌋

/-- Modelled from the spec: `cast_(type)` on a value object — integer ↔
integer truncates or sign-extends per destination width; integer ↔
pointer reinterprets the bit pattern; float → integer truncates toward
zero; float ↔ pointer is a TypeMismatch; struct/union only casts to the
identical type. -/
def cast (o : ProgramObject) (t : CType) : Except Err ProgramObject :=
  match t.strip with
  | .int _ size signed =>
    match o.value? with
    | some (.int n) => .ok ⟨t, none, some (.int (normalizeInt size signed n))⟩
    | some (.float q) =>
      .ok ⟨t, none, some (.int (normalizeInt size signed (ratTrunc q)))⟩
    | none => .error .typeMismatch
  | .bool =>
    match o.value? with
    | some (.int n) => .ok ⟨t, none, some (.int (if n == 0 then 0 else 1))⟩
    | some (.float q) => .ok ⟨t, none, some (.int (if q == 0 then 0 else 1))⟩
    | none => .error .typeMismatch
  | .pointer _ =>
    match o.type_.strip, o.value? with
    | .float _ _, _ => .error .typeMismatch
    | _, some (.int n) => .ok ⟨t, none, some (.int (wrap 64 n))⟩
    | _, _ => .error .typeMismatch
  | .float _ _ =>
    match o.type_.strip, o.value? with
    | .pointer _, _ => .error .typeMismatch
    | _, some (.int n) => .ok ⟨t, none, some (.float n)⟩
    | _, some (.float q) => .ok ⟨t, none, some (.float q)⟩
    | _, none => .error .typeMismatch
  | _ => if t.strip = o.type_.strip then .ok o else .error .typeMismatch

/-! ## Conversion rules and binary operations -/

/-- Modelled from the spec §4.3: integer promotion — any integer type of
rank < `int` promotes to `int` (every narrower type's range fits in
`int` here). -/
def promoteType (t : CType) : CType :=
  match t.strip with
  | .int name size signed => if size < 4 then intT else .int name size signed
  | .bool => intT
  | u => u

/-- Modelled from the spec §4.3: usual arithmetic conversions for two
integer operands — after promotion the larger rank wins; mixed-sign
same-rank → unsigned wins. -/
def uacInt (t u : CType) : CType :=
  match promoteType t, promoteType u with
  | .int n1 s1 g1, .int n2 s2 g2 =>
    if s1 < s2 then .int n2 s2 g2
    else if s2 < s1 then .int n1 s1 g1
    else if g1 = g2 then .int n1 s1 g1
    else if g1 = false then .int n1 s1 g1
    else .int n2 s2 g2
  | t', _ => t'

/-- Common floating type of two arithmetic operands (the larger float). -/
def uacFloat (t u : CType) : CType :=
  match t.strip, u.strip with
  | .float n1 s1, .float n2 s2 => if s1 < s2 then .float n2 s2 else .float n1 s1
  | .float n1 s1, _ => .float n1 s1
  | _, .float n2 s2 => .float n2 s2
  | _, _ => t

/-- Operand classification for double dispatch. -/
inductive Kind where
  | int
  | float
  | pointer
  | other
  deriving Repr, DecidableEq

/-- Classify a type as integer / float / pointer. -/
def kindOf (t : CType) : Kind :=
  match t.strip with
  | .int _ _ _ => .int
  | .bool => .int
  | .float _ _ => .float
  | .pointer _ => .pointer
  | _ => .other

/-- Convert an integer value into an integer type's representation. -/
def convertInt (t : CType) (n : Int) : Int :=
  match t.strip with
  | .int _ size signed => normalizeInt size signed n
  | _ => n

/-- The integer bits of a scalar operand (loads reference objects through
the reader). -/
def intOperand (m : Memory) (o : ProgramObject) : Except Err Int :=
  match value_ m o with
  | .ok (.int n) => .ok n
  | .ok (.float _) => .error .typeMismatch
  | .error e => .error e

/-- The floating value of an arithmetic operand. -/
def floatOperand (m : Memory) (o : ProgramObject) : Except Err Rat :=
  match value_ m o with
  | .ok (.int n) => .ok (n : Rat)
  | .ok (.float q) => .ok q
  | .error e => .error e

/-- Modelled from the spec: integer binary arithmetic — usual arithmetic
conversions, convert both operands, compute, re-wrap into the common
type; optional zero check on the divisor. -/
def intArithCore (f : Int → Int → Int) (checkZero : Bool) (m : Memory)
    (a b : ProgramObject) : Except Err ProgramObject := do
  let t := uacInt a.type_ b.type_
  let x ← intOperand m a
  let y ← intOperand m b
  if checkZero ∧ convertInt t y = 0 then .error .divideByZero
  else .ok ⟨t, none, some (.int (convertInt t (f (convertInt t x) (convertInt t y))))⟩

/-- Floating binary arithmetic in the common floating type. -/
def floatArithCore (f : Rat → Rat → Rat) (m : Memory) (a b : ProgramObject) :
    Except Err ProgramObject := do
  let t := uacFloat a.type_ b.type_
  let x ← floatOperand m a
  let y ← floatOperand m b
  .ok ⟨t, none, some (.float (f x y))⟩

/-- Modelled from the spec §4.5: `pointer ± integer` — pointer at
`base + k * sizeof(element)` (`sign` selects + or −). -/
def ptrOffset (sign : Int) (m : Memory) (p i : ProgramObject) :
    Except Err ProgramObject :=
  match p.type_.strip with
  | .pointer ref =>
    match ref.sizeOf with
    | none => .error .incompleteType
    | some s => do
      let base ← intOperand m p
      let k ← intOperand m i
      .ok ⟨p.type_, none, some (.int (wrap 64 (base + sign * k * s)))⟩
  | _ => .error .typeMismatch

/-- Modelled from the spec §4.5: `pointer - pointer` of compatible
referent — signed `ptrdiff_t` with value `(a - b) / sizeof(element)`;
TypeMismatch on mismatched referents. -/
def ptrDiff (m : Memory) (a b : ProgramObject) : Except Err ProgramObject :=
  match a.type_.strip, b.type_.strip with
  | .pointer r1, .pointer r2 =>
    if r1.strip = r2.strip then
      match r1.sizeOf with
      | none => .error .incompleteType
      | some s => do
        let x ← intOperand m a
        let y ← intOperand m b
        .ok ⟨ptrdiffT, none, some (.int (normalizeInt 8 true (Int.tdiv (x - y) s)))⟩
    else .error .typeMismatch
  | _, _ => .error .typeMismatch

/-- Modelled from the spec: `+` — usual arithmetic conversions on
arithmetic operands; `pointer + integer` and `integer + pointer` offset
the pointer; `pointer + pointer` and `pointer + float` are
TypeMismatch. -/
def add (m : Memory) (a b : ProgramObject) : Except Err ProgramObject :=
  match kindOf a.type_, kindOf b.type_ with
  | .int, .int => intArithCore (· + ·) false m a b
  | .pointer, .int => ptrOffset 1 m a b
  | .int, .pointer => ptrOffset 1 m b a
  | .float, .float => floatArithCore (· + ·) m a b
  | .float, .int => floatArithCore (· + ·) m a b
  | .int, .float => floatArithCore (· + ·) m a b
  | _, _ => .error .typeMismatch

/-- Modelled from the spec: `-` — arithmetic subtraction,
`pointer - integer` offsets, `pointer - pointer` divides the address
difference by the element size; `integer - pointer` is TypeMismatch. -/
def sub (m : Memory) (a b : ProgramObject) : Except Err ProgramObject :=
  match kindOf a.type_, kindOf b.type_ with
  | .int, .int => intArithCore (· - ·) false m a b
  | .pointer, .int => ptrOffset (-1) m a b
  | .pointer, .pointer => ptrDiff m a b
  | .float, .float => floatArithCore (· - ·) m a b
  | .float, .int => floatArithCore (· - ·) m a b
  | .int, .float => floatArithCore (· - ·) m a b
  | _, _ => .error .typeMismatch

/-- Modelled from the spec: `*` — arithmetic only; any pointer operand is
TypeMismatch. -/
def mul (m : Memory) (a b : ProgramObject) : Except Err ProgramObject :=
  match kindOf a.type_, kindOf b.type_ with
  | .int, .int => intArithCore (· * ·) false m a b
  | .float, .float => floatArithCore (· * ·) m a b
  | .float, .int => floatArithCore (· * ·) m a b
  | .int, .float => floatArithCore (· * ·) m a b
  | _, _ => .error .typeMismatch

/-- Modelled from the spec: `/` — on integers truncates toward zero
(`Int.tdiv`); DivideByZero on a zero divisor; pointers are
TypeMismatch. -/
def div (m : Memory) (a b : ProgramObject) : Except Err ProgramObject :=
  match kindOf a.type_, kindOf b.type_ with
  | .int, .int => intArithCore Int.tdiv true m a b
  | .float, .float => floatArithCore (· / ·) m a b
  | .float, .int => floatArithCore (· / ·) m a b
  | .int, .float => floatArithCore (· / ·) m a b
  | _, _ => .error .typeMismatch

/-- Modelled from the spec: `%` — integers only, result takes the sign of
the dividend (`Int.tmod`); DivideByZero on a zero divisor. -/
def mod (m : Memory) (a b : ProgramObject) : Except Err ProgramObject :=
  match kindOf a.type_, kindOf b.type_ with
  | .int, .int => intArithCore Int.tmod true m a b
  | _, _ => .error .typeMismatch

/-- Left shift of the integer bits. -/
def shl (x : Int) (n : Nat) : Int := x * 2 ^ n

/-- Arithmetic right shift of the integer bits (floor division). -/
def shr (x : Int) (n : Nat) : Int := Int.fdiv x (2 ^ n)

/-- Modelled from the spec: `<<` and `>>` — both operands integer after
promotion; the result type is the promoted left operand only; the count
is masked to `operand_width - 1`; pointer or float operands are
TypeMismatch. -/
def shift (f : Int → Nat → Int) (m : Memory) (a b : ProgramObject) :
    Except Err ProgramObject :=
  match kindOf a.type_, kindOf b.type_ with
  | .int, .int => do
    let t := promoteType a.type_
    let x ← intOperand m a
    let y ← intOperand m b
    match t.strip with
    | .int _ size signed =>
      let cnt := (y % ((8:Int) * size)).toNat
      .ok ⟨t, none, some (.int (normalizeInt size signed (f (convertInt t x) cnt)))⟩
    | _ => .error .typeMismatch
  | _, _ => .error .typeMismatch

/-- Modelled from the spec: relational operators — integer vs integer via
usual arithmetic conversions; pointer vs pointer of compatible referent
as unsigned addresses; integer vs pointer TypeMismatch; float
comparisons via conversion. -/
def cmp (m : Memory) (a b : ProgramObject) : Except Err Ordering :=
  match kindOf a.type_, kindOf b.type_ with
  | .int, .int => do
    let t := uacInt a.type_ b.type_
    let x ← intOperand m a
    let y ← intOperand m b
    .ok (compare (convertInt t x) (convertInt t y))
  | .pointer, .pointer =>
    match a.type_.strip, b.type_.strip with
    | .pointer r1, .pointer r2 =>
      if r1.strip = r2.strip then do
        let x ← intOperand m a
        let y ← intOperand m b
        .ok (compare (wrap 64 x) (wrap 64 y))
      else .error .typeMismatch
    | _, _ => .error .typeMismatch
  | .float, .float => do
    let x ← floatOperand m a
    let y ← floatOperand m b
    .ok (compare x y)
  | .float, .int => do
    let x ← floatOperand m a
    let y ← floatOperand m b
    .ok (compare x y)
  | .int, .float => do
    let x ← floatOperand m a
    let y ← floatOperand m b
    .ok (compare x y)
  | _, _ => .error .typeMismatch

/-- `a < b` on program objects. -/
def lt (m : Memory) (a b : ProgramObject) : Except Err Bool :=
  (cmp m a b).map (· = Ordering.lt)

/-! ## Members, pointers to structures, iteration, rendering -/

/-- Look up a member by name: (byte offset, member type). -/
def Members.find? : Members → String → Option (Nat × CType)
  | .nil, _ => none
  | .cons n off t rest, name =>
    if n = name then some (off, t) else rest.find? name

/-- Modelled from the spec: `member_(name)` — valid on struct/union; a
reference object at base + member offset; never dereferences; fails with
UnknownMember when the member does not exist. -/
def member_ (o : ProgramObject) (name : String) : Except Err ProgramObject :=
  match o.type_.strip with
  | .struct _ _ ms =>
    match ms.find? name with
    | some (off, mt) =>
      match o.address_ with
      | some base => .ok ⟨mt, some (base + off), none⟩
      | none => .error .noAddress
    | none => .error .unknownMember
  | _ => .error .typeMismatch

/-- The outcome of Python attribute lookup on a program object. -/
inductive Attr where
  | builtinAddress (a : Option Nat)
  | builtinType (t : CType)
  | obj (o : ProgramObject)
  | err (e : Err)
  deriving Repr, DecidableEq

/-- Modelled from the spec plus Python attribute semantics:
attribute-style access — the object's own attributes (`address_`,
`type_`) take precedence over struct members; otherwise member lookup,
auto-dereferencing a single pointer-to-struct level. -/
def getattr_ (m : Memory) (o : ProgramObject) (name : String) : Attr :=
  if name = "address_" then .builtinAddress o.address_
  else if name = "type_" then .builtinType o.type_
  else
    match o.type_.strip with
    | .pointer ref =>
      match ref.strip with
      | .struct _ _ _ =>
        match intOperand m o with
        | .ok a =>
          match member_ ⟨ref, some (wrap 64 a).toNat, none⟩ name with
          | .ok r => .obj r
          | .error e => .err e
        | .error e => .err e
      | _ => .err .typeMismatch
    | _ =>
      match member_ o name with
      | .ok r => .obj r
      | .error e => .err e

/-- Modelled from the spec: `address_of_()` — a pointer value object of
type `pointer(T)` holding the base address; NoAddress on value
objects. -/
def addressOf (o : ProgramObject) : Except Err ProgramObject :=
  match o.address_ with
  | some a => .ok ⟨.pointer o.type_, none, some (.int (wrap 64 a))⟩
  | none => .error .noAddress

/-- Modelled from the spec: `container_of_(struct_type, member)` on a
pointer to the member — a pointer to the enclosing struct, obtained by
subtracting the member offset. -/
def containerOf (m : Memory) (p : ProgramObject) (t : CType) (member : String) :
    Except Err ProgramObject :=
  match p.type_.strip with
  | .pointer _ =>
    match t.strip with
    | .struct _ _ ms =>
      match ms.find? member with
      | some (off, _) => do
        let a ← intOperand m p
        .ok ⟨.pointer t, none, some (.int (wrap 64 (a - off)))⟩
      | none => .error .unknownMember
    | _ => .error .typeMismatch
  | _ => .error .typeMismatch

/-- Modelled from the spec: `obj[i]` — defined for pointer and array; a
reference object at `base + i * sizeof(element)`; bounds are not
checked. -/
def index (m : Memory) (o : ProgramObject) (i : Int) : Except Err ProgramObject :=
  match o.type_.strip with
  | .pointer elem =>
    match elem.sizeOf with
    | none => .error .incompleteType
    | some s => do
      let a ← intOperand m o
      .ok ⟨elem, some (wrap 64 (a + i * s)).toNat, none⟩
  | .array elem _ =>
    match elem.sizeOf, o.address_ with
    | some s, some base => .ok ⟨elem, some (wrap 64 (base + i * s)).toNat, none⟩
    | none, _ => .error .incompleteType
    | _, none => .error .noAddress
  | _ => .error .typeMismatch

/-- Modelled from the spec: iteration — only arrays of known length are
iterable, yielding the element reference objects in order; iterating a
pointer or an unknown-length array fails with UnboundedIteration. -/
def iter_ (m : Memory) (o : ProgramObject) : Except Err (List ProgramObject) :=
  match o.type_.strip with
  | .array _ (some n) => (List.range n).mapM (fun j : Nat => index m o (j : Int))
  | .array _ none => .error .unboundedIteration
  | .pointer _ => .error .unboundedIteration
  | _ => .error .typeMismatch

/-- C spelling of a type, as used in rendering. -/
def CType.typeName : CType → String
  | .int n _ _ => n
  | .bool => "_Bool"
  | .float n _ => n
  | .pointer t => t.typeName ++ " *"
  | .array t (some n) => t.typeName ++ " [" ++ toString n ++ "]"
  | .array t none => t.typeName ++ " []"
  | .struct n _ _ => "struct " ++ n
  | .typedef n _ => n
  | .void => "void"

/-- Lowercase hexadecimal rendering of an address. -/
def hexStr (n : Nat) : String := "0x" ++ String.mk (Nat.toDigits 16 n)

/-- Display a byte string (the claims only exercise printable bytes). -/
def bytesToString (bs : List Nat) : String := String.mk (bs.map Char.ofNat)

/-- Modelled from the spec §4.6, restricted to pointer objects: `void *`
and null pointers render as `(T)0x…` with no dereference; a non-null
pointer to char renders the NUL-terminated C string as
`(char *)0x… = "…"`; other non-null pointers render `*(T)0x… = <deref>`
when the dereference succeeds, otherwise `(T)0x…`. -/
def strPointer (m : Memory) (o : ProgramObject) : Except Err String :=
  match o.type_.strip with
  | .pointer ref => do
    let a ← intOperand m o
    let addr := (wrap 64 a).toNat
    let pfx := "(" ++ (CType.pointer ref).typeName ++ ")" ++ hexStr addr
    if addr = 0 then .ok pfx
    else
      match ref.strip with
      | .void => .ok pfx
      | .int "char" _ _ =>
        match readCString m addr with
        | some bs => .ok (pfx ++ " = \"" ++ bytesToString bs ++ "\"")
        | none => .error .addressNotMapped
      | _ =>
        match value_ m ⟨ref, some addr, none⟩ with
        | .ok (.int v) => .ok ("*" ++ pfx ++ " = " ++ toString v)
        | _ => .ok pfx
  | _ => .error .typeMismatch

/-! ## Basic lemmas about the integer representation -/

theorem wrap_nonneg (w : Nat) (v : Int) : 0 ≤ wrap w v :=
  Int.emod_nonneg v (by positivity)

theorem wrap_lt (w : Nat) (v : Int) : wrap w v < (2:Int)^w :=
  Int.emod_lt_of_pos v (by positivity)

theorem wrap_emod (w : Nat) (v : Int) : wrap w v % (2:Int)^w = v % (2:Int)^w := by
  simp [wrap, Int.emod_emod_of_dvd]

theorem toSigned_emod (w : Nat) (v : Int) :
    toSigned w v % (2:Int)^w = v % (2:Int)^w := by
  unfold toSigned
  split
  · exact wrap_emod w v
  · rw [Int.sub_emod, Int.emod_self, sub_zero, Int.emod_emod_of_dvd _ dvd_rfl]
    exact wrap_emod w v

theorem toSigned_lt (w : Nat) (hw : 0 < w) (v : Int) :
    toSigned w v < (2:Int)^(w-1) := by
  unfold toSigned
  split
  · assumption
  · have h1 : wrap w v < (2:Int)^w := wrap_lt w v
    have h2 : (2:Int)^w = 2 * (2:Int)^(w-1) := by
      rw [← pow_succ']
      congr 1
      omega
    omega

theorem toSigned_le (w : Nat) (hw : 0 < w) (v : Int) :
    -((2:Int)^(w-1)) ≤ toSigned w v := by
  unfold toSigned
  split
  · have := wrap_nonneg w v
    have : (0:Int) < (2:Int)^(w-1) := by positivity
    omega
  · have h1 : (2:Int)^(w-1) ≤ wrap w v := le_of_not_lt (by assumption)
    have h2 : (2:Int)^w = 2 * (2:Int)^(w-1) := by
      rw [← pow_succ']
      congr 1
      omega
    omega

theorem normalizeInt_emod (size : Nat) (signed : Bool) (v : Int) :
    normalizeInt size signed v % (2:Int)^(8*size) = v % (2:Int)^(8*size) := by
  unfold normalizeInt
  split
  · exact toSigned_emod _ v
  · exact wrap_emod _ v

theorem normalizeInt_signed_bounds (size : Nat) (hs : 0 < size) (v : Int) :
    -((2:Int)^(8*size-1)) ≤ normalizeInt size true v ∧
      normalizeInt size true v < (2:Int)^(8*size-1) :=
  ⟨toSigned_le _ (by omega) v, toSigned_lt _ (by omega) v⟩

theorem normalizeInt_unsigned_bounds (size : Nat) (v : Int) :
    0 ≤ normalizeInt size false v ∧ normalizeInt size false v < (2:Int)^(8*size) :=
  ⟨wrap_nonneg _ v, wrap_lt _ v⟩

theorem wrap_eq_self (w : Nat) (v : Int) (h1 : 0 ≤ v) (h2 : v < (2:Int)^w) :
    wrap w v = v :=
  Int.emod_eq_of_lt h1 h2

theorem toSigned_eq_self (w : Nat) (hw : 0 < w) (v : Int)
    (h1 : -((2:Int)^(w-1)) ≤ v) (h2 : v < (2:Int)^(w-1)) : toSigned w v = v := by
  have hpow : (2:Int)^w = 2 * (2:Int)^(w-1) := by
    rw [← pow_succ']
    congr 1
    omega
  have hp : (0:Int) < (2:Int)^(w-1) := by positivity
  unfold toSigned
  rcases le_or_lt 0 v with hv | hv
  · have hwrap : wrap w v = v := wrap_eq_self w v hv (by omega)
    rw [hwrap, if_pos h2]
  · have hwrap : wrap w v = v + (2:Int)^w := by
      have heq : (v + (2:Int)^w * 1) % (2:Int)^w = v % (2:Int)^w :=
        Int.add_mul_emod_self_left v ((2:Int)^w) 1
      unfold wrap
      rw [← heq, mul_one]
      exact Int.emod_eq_of_lt (by omega) (by omega)
    rw [hwrap, if_neg (by omega)]
    omega

theorem normalizeInt_eq_self_signed (size : Nat) (hs : 0 < size) (v : Int)
    (h1 : -((2:Int)^(8*size-1)) ≤ v) (h2 : v < (2:Int)^(8*size-1)) :
    normalizeInt size true v = v :=
  toSigned_eq_self (8*size) (by omega) v h1 h2

theorem normalizeInt_eq_self_unsigned (size : Nat) (v : Int)
    (h1 : 0 ≤ v) (h2 : v < (2:Int)^(8*size)) :
    normalizeInt size false v = v :=
  wrap_eq_self _ v h1 h2

theorem tmod_neg_left (a b : Int) : (-a).tmod b = -(a.tmod b) := by
  rw [Int.tmod_def, Int.tmod_def, Int.neg_tdiv]
  ring

theorem tmod_nonpos (a b : Int) (h : a ≤ 0) : a.tmod b ≤ 0 := by
  have h2 : 0 ≤ -a := by omega
  have h3 := Int.tmod_nonneg b h2
  have h4 := tmod_neg_left a b
  omega

theorem natAbs_tmod_lt (a b : Int) (hb : b ≠ 0) :
    (a.tmod b).natAbs < b.natAbs := by
  have key : ∀ x : Int, 0 ≤ x → (x.tmod b).natAbs < b.natAbs := by
    intro x hx
    have hbb : 0 < |b| := by positivity
    have h1 : x.tmod b = x.tmod |b| := by
      rcases abs_cases b with ⟨h, _⟩ | ⟨h, _⟩
      · rw [h]
      · rw [h, Int.tmod_neg]
    have h2 : 0 ≤ x.tmod |b| := Int.tmod_nonneg _ hx
    have h3 : x.tmod |b| < |b| := Int.tmod_lt_of_pos x hbb
    have h4 : (x.tmod b).natAbs < |b|.natAbs := by
      rw [h1]
      omega
    simpa [Int.natAbs_abs] using h4
  rcases le_or_lt 0 a with ha | ha
  · exact key a ha
  · have h2 := tmod_neg_left a b
    have h3 := key (-a) (by omega)
    omega

theorem mapM_congr_ok {α β : Type} (f g : α → Except Err β) (xs : List α)
    (h : ∀ x ∈ xs, f x = g x) : xs.mapM f = xs.mapM g := by
  induction xs with
  | nil => rfl
  | cons x xs ih =>
    rw [List.mapM_cons, List.mapM_cons, h x (by simp),
        ih (fun y hy => h y (by simp [hy]))]

theorem mapM_ok {α β : Type} (g : α → β) (xs : List α) :
    xs.mapM (fun x => (Except.ok (g x) : Except Err β)) = .ok (xs.map g) := by
  induction xs with
  | nil => rfl
  | cons x xs ih => rw [List.mapM_cons, ih]; rfl

/-! ## The claims -/

/-- C1: for every integer type of width `w = 8*size`, an integer value
supplied to `Program.object` when constructing a value object is reduced
modulo `2^w` and reinterpreted according to the type's signedness (so
`object(int, value=2^31).value_() == -2^31`), and `cast_` between
integer types truncates or sign-extends to the destination width (so
`object(int, value=-1).cast_(unsigned int).value_() == 2^32 - 1`). -/
theorem claim_C1_integer_normalization_and_cast
    (name name' : String) (size size' : Nat) (signed signed' : Bool) (v : Int)
    (hs : 0 < size) (hs' : 0 < size') :
    (∃ x,
      makeObject (.int name size signed) none (some (.int v)) =
        .ok ⟨.int name size signed, none, some (.int x)⟩ ∧
      x % (2:Int)^(8*size) = v % (2:Int)^(8*size) ∧
      (signed = true → -((2:Int)^(8*size-1)) ≤ x ∧ x < (2:Int)^(8*size-1)) ∧
      (signed = false → 0 ≤ x ∧ x < (2:Int)^(8*size)) ∧
      ∃ y,
        cast ⟨.int name size signed, none, some (.int x)⟩
            (.int name' size' signed') =
          .ok ⟨.int name' size' signed', none, some (.int y)⟩ ∧
        y % (2:Int)^(8*size') = x % (2:Int)^(8*size') ∧
        (signed' = true → -((2:Int)^(8*size'-1)) ≤ y ∧ y < (2:Int)^(8*size'-1)) ∧
        (signed' = false → 0 ≤ y ∧ y < (2:Int)^(8*size'))) ∧
    (makeObject intT none (some (.int (2^31)))).bind (value_ testMemory) =
      .ok (.int (-(2^31))) ∧
    ((makeObject intT none (some (.int (-1)))).bind
        (fun o => cast o uintT)).bind (value_ testMemory) =
      .ok (.int (2^32 - 1)) := by
  refine ⟨⟨normalizeInt size signed v, rfl, normalizeInt_emod size signed v,
      ?_, ?_,
      normalizeInt size' signed' (normalizeInt size signed v), rfl,
      normalizeInt_emod size' signed' _, ?_, ?_⟩, ?_, ?_⟩
  · rintro rfl
    exact normalizeInt_signed_bounds size hs v
  · rintro rfl
    exact normalizeInt_unsigned_bounds size v
  · rintro rfl
    exact normalizeInt_signed_bounds size' hs' _
  · rintro rfl
    exact normalizeInt_unsigned_bounds size' _
  · rfl
  · rfl

/-- C1 witness: the theorem instantiated at `int` → `unsigned int` with
value 5. -/
theorem claim_C1_witness :
    0 < 4 ∧
    ((∃ x,
      makeObject (.int "int" 4 true) none (some (.int 5)) =
        .ok ⟨.int "int" 4 true, none, some (.int x)⟩ ∧
      x % (2:Int)^(8*4) = 5 % (2:Int)^(8*4) ∧
      (true = true → -((2:Int)^(8*4-1)) ≤ x ∧ x < (2:Int)^(8*4-1)) ∧
      (true = false → 0 ≤ x ∧ x < (2:Int)^(8*4)) ∧
      ∃ y,
        cast ⟨.int "int" 4 true, none, some (.int x)⟩
            (.int "unsigned int" 4 false) =
          .ok ⟨.int "unsigned int" 4 false, none, some (.int y)⟩ ∧
        y % (2:Int)^(8*4) = x % (2:Int)^(8*4) ∧
        (false = true → -((2:Int)^(8*4-1)) ≤ y ∧ y < (2:Int)^(8*4-1)) ∧
        (false = false → 0 ≤ y ∧ y < (2:Int)^(8*4))) ∧
    (makeObject intT none (some (.int (2^31)))).bind (value_ testMemory) =
      .ok (.int (-(2^31))) ∧
    ((makeObject intT none (some (.int (-1)))).bind
        (fun o => cast o uintT)).bind (value_ testMemory) =
      .ok (.int (2^32 - 1))) :=
  ⟨by decide,
   claim_C1_integer_normalization_and_cast "int" "unsigned int" 4 4 true false 5
     (by decide) (by decide)⟩

/-- C2: relational comparison of two integer objects applies the usual
arithmetic conversions first — comparing `int` with `unsigned int`
compares both values reduced to the unsigned 32-bit representation, so
`object(int, -1) < object(unsigned int, 0)` is false. -/
theorem claim_C2_relational_uac (x y : Int) :
    cmp testMemory ⟨intT, none, some (.int x)⟩ ⟨uintT, none, some (.int y)⟩ =
      .ok (compare (wrap 32 x) (wrap 32 y)) ∧
    lt testMemory ⟨intT, none, some (.int (-1))⟩ ⟨uintT, none, some (.int 0)⟩ =
      .ok false := by
  exact ⟨rfl, rfl⟩

/-- C3: for `int`-typed operands with in-range values, nonzero divisor
and excluding the single wrapping case `INT_MIN / -1`, `/` truncates the
quotient toward zero and `%` takes the sign of the dividend: the results
q and r satisfy `x = q*y + r`, `|r| < |y|`, and r is ≥ 0 when x ≥ 0 and
≤ 0 when x ≤ 0 (which pins q to truncation toward zero); concretely
`-1 / 2 == 0`, `1 / -2 == 0`, `-1 % 26 == -1`, `1 % -26 == 1`. -/
theorem claim_C3_div_truncates_mod_dividend_sign (x y : Int)
    (hx1 : -((2:Int)^31) ≤ x) (hx2 : x < (2:Int)^31)
    (hy1 : -((2:Int)^31) ≤ y) (hy2 : y < (2:Int)^31)
    (hy0 : y ≠ 0) (hover : ¬(x = -((2:Int)^31) ∧ y = -1)) :
    (∃ q r,
      div testMemory ⟨intT, none, some (.int x)⟩ ⟨intT, none, some (.int y)⟩ =
        .ok ⟨intT, none, some (.int q)⟩ ∧
      mod testMemory ⟨intT, none, some (.int x)⟩ ⟨intT, none, some (.int y)⟩ =
        .ok ⟨intT, none, some (.int r)⟩ ∧
      x = q * y + r ∧ r.natAbs < y.natAbs ∧
      (0 ≤ x → 0 ≤ r) ∧ (x ≤ 0 → r ≤ 0)) ∧
    div testMemory ⟨intT, none, some (.int (-1))⟩ ⟨intT, none, some (.int 2)⟩ =
      .ok ⟨intT, none, some (.int 0)⟩ ∧
    div testMemory ⟨intT, none, some (.int 1)⟩ ⟨intT, none, some (.int (-2))⟩ =
      .ok ⟨intT, none, some (.int 0)⟩ ∧
    mod testMemory ⟨intT, none, some (.int (-1))⟩ ⟨intT, none, some (.int 26)⟩ =
      .ok ⟨intT, none, some (.int (-1))⟩ ∧
    mod testMemory ⟨intT, none, some (.int 1)⟩ ⟨intT, none, some (.int (-26))⟩ =
      .ok ⟨intT, none, some (.int 1)⟩ := by
  have hxx : convertInt (uacInt intT intT) x = x :=
    normalizeInt_eq_self_signed 4 (by norm_num) x hx1 hx2
  have hyy : convertInt (uacInt intT intT) y = y :=
    normalizeInt_eq_self_signed 4 (by norm_num) y hy1 hy2
  have hqb : -((2:Int)^31) ≤ x.tdiv y ∧ x.tdiv y < (2:Int)^31 := by
    by_cases hxmin : x = -((2:Int)^31)
    · subst hxmin
      by_cases hyone : y = 1
      · subst hyone
        rw [Int.tdiv_one]
        norm_num
      · have hyabs : 2 ≤ y.natAbs := by omega
        have h1 : ((-((2:Int)^31)).tdiv y).natAbs =
            (-((2:Int)^31)).natAbs / y.natAbs := Int.natAbs_tdiv (-((2:Int)^31)) y
        have h3 : (-((2:Int)^31)).natAbs = 2147483648 := by norm_num
        rw [h3] at h1
        have h2 : (2147483648:Nat) / y.natAbs ≤ (2147483648:Nat) / 2 :=
          Nat.div_le_div_left hyabs (by norm_num)
        omega
    · have h1 : (x.tdiv y).natAbs = x.natAbs / y.natAbs := Int.natAbs_tdiv x y
      have h2 : x.natAbs / y.natAbs ≤ x.natAbs := Nat.div_le_self x.natAbs y.natAbs
      omega
  have hqq : convertInt (uacInt intT intT) (x.tdiv y) = x.tdiv y :=
    normalizeInt_eq_self_signed 4 (by norm_num) _ hqb.1 hqb.2
  have hrabs : (x.tmod y).natAbs < y.natAbs := natAbs_tmod_lt x y hy0
  have hrr : convertInt (uacInt intT intT) (x.tmod y) = x.tmod y := by
    refine normalizeInt_eq_self_signed 4 (by norm_num) _ ?_ ?_ <;> omega
  refine ⟨⟨x.tdiv y, x.tmod y, ?_, ?_, ?_, hrabs,
      fun hx => Int.tmod_nonneg y hx, fun hx => tmod_nonpos x y hx⟩,
      rfl, rfl, rfl, rfl⟩
  · show (if (true = true) ∧ convertInt (uacInt intT intT) y = 0
        then (Except.error Err.divideByZero : Except Err ProgramObject)
        else .ok ⟨uacInt intT intT, none,
          some (.int (convertInt (uacInt intT intT)
            (Int.tdiv (convertInt (uacInt intT intT) x)
              (convertInt (uacInt intT intT) y))))⟩) =
      .ok ⟨intT, none, some (.int (x.tdiv y))⟩
    rw [if_neg (by simp [hyy, hy0]), hxx, hyy, hqq]
    rfl
  · show (if (true = true) ∧ convertInt (uacInt intT intT) y = 0
        then (Except.error Err.divideByZero : Except Err ProgramObject)
        else .ok ⟨uacInt intT intT, none,
          some (.int (convertInt (uacInt intT intT)
            (Int.tmod (convertInt (uacInt intT intT) x)
              (convertInt (uacInt intT intT) y))))⟩) =
      .ok ⟨intT, none, some (.int (x.tmod y))⟩
    rw [if_neg (by simp [hyy, hy0]), hxx, hyy, hrr]
    rfl
  · linear_combination - Int.tmod_add_tdiv x y

/-- C3 witness: the theorem instantiated at dividend -1 and divisor 2. -/
theorem claim_C3_witness :
    (-((2:Int)^31) ≤ -1 ∧ (-1:Int) < (2:Int)^31 ∧
     -((2:Int)^31) ≤ 2 ∧ (2:Int) < (2:Int)^31 ∧
     (2:Int) ≠ 0 ∧ ¬((-1:Int) = -((2:Int)^31) ∧ (2:Int) = -1)) ∧
    ((∃ q r,
      div testMemory ⟨intT, none, some (.int (-1))⟩ ⟨intT, none, some (.int 2)⟩ =
        .ok ⟨intT, none, some (.int q)⟩ ∧
      mod testMemory ⟨intT, none, some (.int (-1))⟩ ⟨intT, none, some (.int 2)⟩ =
        .ok ⟨intT, none, some (.int r)⟩ ∧
      (-1:Int) = q * 2 + r ∧ r.natAbs < (2:Int).natAbs ∧
      ((0:Int) ≤ -1 → 0 ≤ r) ∧ ((-1:Int) ≤ 0 → r ≤ 0)) ∧
    div testMemory ⟨intT, none, some (.int (-1))⟩ ⟨intT, none, some (.int 2)⟩ =
      .ok ⟨intT, none, some (.int 0)⟩ ∧
    div testMemory ⟨intT, none, some (.int 1)⟩ ⟨intT, none, some (.int (-2))⟩ =
      .ok ⟨intT, none, some (.int 0)⟩ ∧
    mod testMemory ⟨intT, none, some (.int (-1))⟩ ⟨intT, none, some (.int 26)⟩ =
      .ok ⟨intT, none, some (.int (-1))⟩ ∧
    mod testMemory ⟨intT, none, some (.int 1)⟩ ⟨intT, none, some (.int (-26))⟩ =
      .ok ⟨intT, none, some (.int 1)⟩) :=
  ⟨⟨by norm_num, by norm_num, by norm_num, by norm_num, by norm_num, by norm_num⟩,
   claim_C3_div_truncates_mod_dividend_sign (-1) 2 (by norm_num) (by norm_num)
     (by norm_num) (by norm_num) (by norm_num) (by norm_num)⟩

/-- C4: for either shift direction (any bit-level shift function f),
both operands must be integers after promotion and the result type is
the promoted type of the left operand only — `int << long` has type
`int` while `long << int` has type `long`; a pointer or float operand on
either side fails with TypeMismatch.  Concretely `2 << 3 == 16` (at
types int and long) and `16 >> 3 == 2`. -/
theorem claim_C4_shift_result_type_is_promoted_left (f : Int → Nat → Int)
    (x y : Int) :
    (shift f testMemory ⟨intT, none, some (.int x)⟩
        ⟨longT, none, some (.int y)⟩).map (fun o => o.type_) = .ok intT ∧
    (shift f testMemory ⟨longT, none, some (.int x)⟩
        ⟨intT, none, some (.int y)⟩).map (fun o => o.type_) = .ok longT ∧
    (shift f testMemory ⟨intT, none, some (.int x)⟩
        ⟨intT, none, some (.int y)⟩).map (fun o => o.type_) = .ok intT ∧
    (shift f testMemory ⟨longT, none, some (.int x)⟩
        ⟨longT, none, some (.int y)⟩).map (fun o => o.type_) = .ok longT ∧
    shift f testMemory ⟨.pointer intT, none, some (.int x)⟩
        ⟨intT, none, some (.int y)⟩ = .error .typeMismatch ∧
    shift f testMemory ⟨intT, none, some (.int x)⟩
        ⟨.pointer intT, none, some (.int y)⟩ = .error .typeMismatch ∧
    shift f testMemory ⟨doubleT, none, some (.float 1)⟩
        ⟨intT, none, some (.int y)⟩ = .error .typeMismatch ∧
    shift f testMemory ⟨intT, none, some (.int x)⟩
        ⟨doubleT, none, some (.float 1)⟩ = .error .typeMismatch ∧
    shift shl testMemory ⟨intT, none, some (.int 2)⟩
        ⟨longT, none, some (.int 3)⟩ = .ok ⟨intT, none, some (.int 16)⟩ ∧
    shift shl testMemory ⟨longT, none, some (.int 2)⟩
        ⟨intT, none, some (.int 3)⟩ = .ok ⟨longT, none, some (.int 16)⟩ ∧
    shift shr testMemory ⟨intT, none, some (.int 16)⟩
        ⟨intT, none, some (.int 3)⟩ = .ok ⟨intT, none, some (.int 2)⟩ :=
  ⟨rfl, rfl, rfl, rfl, rfl, rfl, rfl, rfl, rfl, rfl, rfl⟩

/-- C5: for a pointer value object p of element type t (size s) and an
integer i, `p + i` and `i + p` are pointer objects at address
`base + i * sizeof(t)`; subtracting two pointers of compatible referent
yields a signed `ptrdiff_t` equal to the address difference divided by
the element size, so `(p + i) - p == i`; subtracting pointers with
mismatched referents fails with TypeMismatch. -/
theorem claim_C5_pointer_arithmetic_identity (t t' : CType) (base b2 : Nat)
    (i : Int) (s : Nat)
    (hsz : t.sizeOf = some s) (hs : 0 < s)
    (hbase0 : 0 ≤ (base:Int) + i * s) (hbase : (base:Int) + i * s < (2:Int)^64)
    (hi1 : -((2:Int)^63) ≤ i) (hi2 : i < (2:Int)^63)
    (ht' : t.strip ≠ t'.strip) :
    add testMemory ⟨.pointer t, none, some (.int (base:Int))⟩
        ⟨longT, none, some (.int i)⟩ =
      .ok ⟨.pointer t, none, some (.int ((base:Int) + i * s))⟩ ∧
    add testMemory ⟨longT, none, some (.int i)⟩
        ⟨.pointer t, none, some (.int (base:Int))⟩ =
      .ok ⟨.pointer t, none, some (.int ((base:Int) + i * s))⟩ ∧
    sub testMemory ⟨.pointer t, none, some (.int ((base:Int) + i * s))⟩
        ⟨.pointer t, none, some (.int (base:Int))⟩ =
      .ok ⟨ptrdiffT, none, some (.int i)⟩ ∧
    sub testMemory ⟨.pointer t, none, some (.int (base:Int))⟩
        ⟨.pointer t', none, some (.int (b2:Nat))⟩ = .error .typeMismatch := by
  have hmul : (1:Int) * i * (s:Int) = i * s := by ring
  refine ⟨?_, ?_, ?_, ?_⟩
  · simp only [add, ptrOffset, kindOf, CType.strip, hsz]
    show (Except.ok (⟨CType.pointer t, none,
        some (CValue.int (wrap 64 ((base:Int) + 1 * i * (s:Int))))⟩ :
          ProgramObject) : Except Err ProgramObject) = _
    rw [hmul, wrap_eq_self 64 _ hbase0 hbase]
  · simp only [add, ptrOffset, kindOf, CType.strip, hsz]
    show (Except.ok (⟨CType.pointer t, none,
        some (CValue.int (wrap 64 ((base:Int) + 1 * i * (s:Int))))⟩ :
          ProgramObject) : Except Err ProgramObject) = _
    rw [hmul, wrap_eq_self 64 _ hbase0 hbase]
  · simp only [sub, ptrDiff, kindOf, CType.strip, hsz, if_pos rfl]
    show (Except.ok (⟨ptrdiffT, none, some (CValue.int (normalizeInt 8 true
        (Int.tdiv ((base:Int) + i * s - base) s)))⟩ : ProgramObject) :
          Except Err ProgramObject) = _
    rw [show (base:Int) + i * s - base = i * s from by ring,
        Int.mul_tdiv_cancel i (show (s:Int) ≠ 0 from by exact_mod_cast hs.ne'),
        normalizeInt_eq_self_signed 8 (by norm_num) i hi1 hi2]
  · simp only [sub, ptrDiff, kindOf, CType.strip]
    rw [if_neg ht']

/-- C5 witness: the theorem instantiated at an `int` pointer to the test
image, offset 1, with a `char` pointer as the incompatible referent. -/
theorem claim_C5_witness :
    ((intT.sizeOf = some 4) ∧ (0 < 4) ∧
     (0 ≤ (0xffff0000:Int) + 1 * (4:Nat)) ∧
     ((0xffff0000:Int) + 1 * (4:Nat) < (2:Int)^64) ∧
     (-((2:Int)^63) ≤ 1) ∧ ((1:Int) < (2:Int)^63) ∧
     intT.strip ≠ charT.strip) ∧
    (add testMemory ⟨.pointer intT, none, some (.int (0xffff0000:Nat))⟩
        ⟨longT, none, some (.int 1)⟩ =
      .ok ⟨.pointer intT, none, some (.int ((0xffff0000:Nat) + 1 * (4:Nat)))⟩ ∧
    add testMemory ⟨longT, none, some (.int 1)⟩
        ⟨.pointer intT, none, some (.int (0xffff0000:Nat))⟩ =
      .ok ⟨.pointer intT, none, some (.int ((0xffff0000:Nat) + 1 * (4:Nat)))⟩ ∧
    sub testMemory ⟨.pointer intT, none, some (.int ((0xffff0000:Nat) + 1 * (4:Nat)))⟩
        ⟨.pointer intT, none, some (.int (0xffff0000:Nat))⟩ =
      .ok ⟨ptrdiffT, none, some (.int 1)⟩ ∧
    sub testMemory ⟨.pointer intT, none, some (.int (0xffff0000:Nat))⟩
        ⟨.pointer charT, none, some (.int ((0:Nat):Nat))⟩ = .error .typeMismatch) :=
  ⟨⟨rfl, by norm_num, by norm_num, by norm_num, by norm_num, by norm_num,
    by decide⟩,
   claim_C5_pointer_arithmetic_identity intT charT 0xffff0000 0 1 4 rfl
     (by norm_num) (by norm_num) (by norm_num) (by norm_num) (by norm_num)
     (by decide)⟩

/-- C6: for a struct type T with member m at offset `off` and a
reference object s to T, taking the address of the member and calling
`container_of_(T, m)` on it returns the pointer to the enclosing
struct: `(&s.m).container_of_(T, m) == &s` — the member offset
cancels. -/
theorem claim_C6_container_of_cancels_member_offset (sname : String) (sz : Nat)
    (ms : Members) (base off : Nat) (mname : String) (mt : CType)
    (hfind : ms.find? mname = some (off, mt))
    (hoff : base + off < 2^64) :
    ((member_ ⟨.struct sname sz ms, some base, none⟩ mname).bind addressOf).bind
        (fun p => containerOf testMemory p (.struct sname sz ms) mname) =
      addressOf ⟨.struct sname sz ms, some base, none⟩ := by
  simp only [member_, CType.strip, hfind, addressOf, containerOf, kindOf]
  show (Except.ok (⟨CType.pointer (.struct sname sz ms), none,
      some (CValue.int (wrap 64
        (wrap 64 (((base + off : Nat) : Int)) - (off:Int))))⟩ : ProgramObject) :
        Except Err ProgramObject) = _
  rw [wrap_eq_self 64 ((base + off : Nat) : Int) (by positivity)
        (by exact_mod_cast hoff),
      show ((base + off : Nat) : Int) - (off:Int) = (base:Int) from by
        push_cast
        ring]

/-- C6 witness: the theorem at `struct point`, member `y` of the test
image object at `0xffff0000`. -/
theorem claim_C6_witness :
    ((Members.cons "x" 0 intT (.cons "y" 4 intT .nil)).find? "y" =
        some (4, intT) ∧ 0xffff0000 + 4 < 2^64) ∧
    ((member_ ⟨.struct "point" 8 (.cons "x" 0 intT (.cons "y" 4 intT .nil)),
          some 0xffff0000, none⟩ "y").bind addressOf).bind
        (fun p => containerOf testMemory p
          (.struct "point" 8 (.cons "x" 0 intT (.cons "y" 4 intT .nil))) "y") =
      addressOf ⟨.struct "point" 8 (.cons "x" 0 intT (.cons "y" 4 intT .nil)),
          some 0xffff0000, none⟩ :=
  ⟨⟨by decide, by norm_num⟩,
   claim_C6_container_of_cancels_member_offset "point" 8
     (.cons "x" 0 intT (.cons "y" 4 intT .nil)) 0xffff0000 4 "y" intT
     (by decide) (by norm_num)⟩

/-- C7: `member_(name)` on a struct reference object returns a reference
object at base + member offset without dereferencing; attribute-style
access does the same and additionally auto-dereferences a single
pointer-to-struct level (so `ptr_to_struct.x` equals `struct_obj.x`);
both fail with UnknownMember when the named member does not exist. -/
theorem claim_C7_member_access_and_auto_deref (sname : String) (sz : Nat)
    (ms : Members) (base : Nat) (mname : String)
    (hb : base < 2^64)
    (hn1 : mname ≠ "address_") (hn2 : mname ≠ "type_") :
    (∀ off mt, ms.find? mname = some (off, mt) →
      member_ ⟨.struct sname sz ms, some base, none⟩ mname =
        .ok ⟨mt, some (base + off), none⟩ ∧
      getattr_ testMemory ⟨.struct sname sz ms, some base, none⟩ mname =
        .obj ⟨mt, some (base + off), none⟩ ∧
      getattr_ testMemory ⟨.pointer (.struct sname sz ms), none,
          some (.int (base:Int))⟩ mname = .obj ⟨mt, some (base + off), none⟩) ∧
    (ms.find? mname = none →
      member_ ⟨.struct sname sz ms, some base, none⟩ mname =
        .error .unknownMember ∧
      getattr_ testMemory ⟨.struct sname sz ms, some base, none⟩ mname =
        .err .unknownMember ∧
      getattr_ testMemory ⟨.pointer (.struct sname sz ms), none,
          some (.int (base:Int))⟩ mname = .err .unknownMember) := by
  constructor
  · intro off mt hfind
    have hmem : member_ ⟨.struct sname sz ms, some base, none⟩ mname =
        .ok ⟨mt, some (base + off), none⟩ := by
      simp only [member_, CType.strip, hfind]
    refine ⟨hmem, ?_, ?_⟩
    · simp only [getattr_, if_neg hn1, if_neg hn2, CType.strip, hmem]
    · simp only [getattr_, if_neg hn1, if_neg hn2, CType.strip, intOperand,
        value_]
      rw [wrap_eq_self 64 (base:Int) (by positivity) (by exact_mod_cast hb),
        Int.toNat_natCast]
      simp only [hmem]
  · intro hfind
    have hmem : member_ ⟨.struct sname sz ms, some base, none⟩ mname =
        .error .unknownMember := by
      simp only [member_, CType.strip, hfind]
    refine ⟨hmem, ?_, ?_⟩
    · simp only [getattr_, if_neg hn1, if_neg hn2, CType.strip, hmem]
    · simp only [getattr_, if_neg hn1, if_neg hn2, CType.strip, intOperand,
        value_]
      rw [wrap_eq_self 64 (base:Int) (by positivity) (by exact_mod_cast hb),
        Int.toNat_natCast]
      simp only [hmem]

/-- C7 witness: member `y` of `struct point` at `0xffff0000`, through
both the struct reference object and the pointer-to-struct object. -/
theorem claim_C7_witness :
    ((0xffff0000:Nat) < 2^64 ∧ "y" ≠ "address_" ∧ "y" ≠ "type_" ∧
     (Members.cons "x" 0 intT (.cons "y" 4 intT .nil)).find? "y" =
       some (4, intT)) ∧
    (member_ ⟨.struct "point" 8 (.cons "x" 0 intT (.cons "y" 4 intT .nil)),
        some 0xffff0000, none⟩ "y" =
      .ok ⟨intT, some (0xffff0000 + 4), none⟩ ∧
    getattr_ testMemory
        ⟨.struct "point" 8 (.cons "x" 0 intT (.cons "y" 4 intT .nil)),
          some 0xffff0000, none⟩ "y" =
      .obj ⟨intT, some (0xffff0000 + 4), none⟩ ∧
    getattr_ testMemory
        ⟨.pointer (.struct "point" 8 (.cons "x" 0 intT (.cons "y" 4 intT .nil))),
          none, some (.int ((0xffff0000:Nat):Int))⟩ "y" =
      .obj ⟨intT, some (0xffff0000 + 4), none⟩) :=
  ⟨⟨by norm_num, by decide, by decide, by decide⟩,
   (claim_C7_member_access_and_auto_deref "point" 8
      (.cons "x" 0 intT (.cons "y" 4 intT .nil)) 0xffff0000 "y"
      (by norm_num) (by decide) (by decide)).1 4 intT (by decide)⟩

/-- C8: iteration succeeds only on arrays of known length, yielding
exactly `length` element reference objects in order; iterating a pointer
object or an unknown-length array fails with UnboundedIteration, yet
indexing those same objects still succeeds without bounds checks. -/
theorem claim_C8_iteration_bounded_only (elem : CType) (n base s : Nat)
    (hsz : elem.sizeOf = some s) (hrange : base + n * s < 2^64) :
    (∃ l, iter_ testMemory ⟨.array elem (some n), some base, none⟩ = .ok l ∧
      l.length = n ∧
      ∀ j (hj : j < l.length),
        l.get ⟨j, hj⟩ = ⟨elem, some (base + j * s), none⟩) ∧
    iter_ testMemory ⟨.pointer elem, none, some (.int (base:Int))⟩ =
      .error .unboundedIteration ∧
    iter_ testMemory ⟨.array elem none, some base, none⟩ =
      .error .unboundedIteration ∧
    (∀ i : Nat, base + i * s < 2^64 →
      index testMemory ⟨.array elem none, some base, none⟩ (i:Int) =
        .ok ⟨elem, some (base + i * s), none⟩ ∧
      index testMemory ⟨.pointer elem, none, some (.int (base:Int))⟩ (i:Int) =
        .ok ⟨elem, some (base + i * s), none⟩) := by
  have haddr : ∀ i : Nat, base + i * s < 2^64 →
      (wrap 64 ((base:Int) + (i:Int) * (s:Int))).toNat = base + i * s := by
    intro i hi
    rw [show (base:Int) + (i:Int) * (s:Int) = ((base + i * s : Nat) : Int) from
        by push_cast; ring,
      wrap_eq_self 64 _ (by positivity) (by exact_mod_cast hi),
      Int.toNat_natCast]
  have hidx : ∀ j ∈ List.range n,
      index testMemory ⟨.array elem (some n), some base, none⟩ (j:Int) =
        .ok ⟨elem, some (base + j * s), none⟩ := by
    intro j hj
    have hj' : j < n := List.mem_range.mp hj
    have hjs : j * s ≤ n * s := Nat.mul_le_mul_right s (le_of_lt hj')
    simp only [index, CType.strip, hsz]
    rw [haddr j (by omega)]
  refine ⟨⟨(List.range n).map
      (fun j => (⟨elem, some (base + j * s), none⟩ : ProgramObject)),
      ?_, by simp, ?_⟩, rfl, rfl, ?_⟩
  · show (List.range n).mapM
        (fun j : Nat => index testMemory ⟨.array elem (some n), some base, none⟩
          (j:Int)) = _
    rw [mapM_congr_ok _
        (fun j => .ok (⟨elem, some (base + j * s), none⟩ : ProgramObject))
        (List.range n) hidx,
      mapM_ok]
  · intro j hj
    simp [List.get_eq_getElem, List.getElem_map, List.getElem_range]
  · intro i hi
    constructor
    · simp only [index, CType.strip, hsz]
      rw [haddr i hi]
    · simp only [index, CType.strip, hsz, intOperand, value_]
      show (Except.ok (⟨elem,
          some ((wrap 64 ((base:Int) + (i:Int) * (s:Int))).toNat), none⟩ :
            ProgramObject) : Except Err ProgramObject) = _
      rw [haddr i hi]

/-- C8 witness: `int[2]` at `0xffff0000` in the test image iterates to
its two elements; the pointer and unknown-length-array forms fail. -/
theorem claim_C8_witness :
    (intT.sizeOf = some 4 ∧ (0xffff0000:Nat) + 2 * 4 < 2^64) ∧
    ((∃ l, iter_ testMemory ⟨.array intT (some 2), some 0xffff0000, none⟩ =
        .ok l ∧
      l.length = 2 ∧
      ∀ j (hj : j < l.length),
        l.get ⟨j, hj⟩ = ⟨intT, some (0xffff0000 + j * 4), none⟩) ∧
    iter_ testMemory ⟨.pointer intT, none, some (.int ((0xffff0000:Nat):Int))⟩ =
      .error .unboundedIteration ∧
    iter_ testMemory ⟨.array intT none, some 0xffff0000, none⟩ =
      .error .unboundedIteration ∧
    (∀ i : Nat, (0xffff0000:Nat) + i * 4 < 2^64 →
      index testMemory ⟨.array intT none, some 0xffff0000, none⟩ (i:Int) =
        .ok ⟨intT, some (0xffff0000 + i * 4), none⟩ ∧
      index testMemory ⟨.pointer intT, none,
          some (.int ((0xffff0000:Nat):Int))⟩ (i:Int) =
        .ok ⟨intT, some (0xffff0000 + i * 4), none⟩)) :=
  ⟨⟨rfl, by norm_num⟩,
   claim_C8_iteration_bounded_only intT 2 0xffff0000 4 rfl (by norm_num)⟩

/-- C9: rendering a non-null pointer-to-char value object produces
`(char *)0x<address> = "<string>"` where the string is the
NUL-terminated C string read at the address (bytes beyond NUL elided);
a char pointer whose target byte is NUL renders as
`(char *)0xffff000f = ""`, and a null char pointer renders as
`(char *)0x0` with no string part. -/
theorem claim_C9_char_pointer_rendering (a : Nat) (bs : List Nat)
    (h0 : a ≠ 0) (ha : a < 2^64)
    (hread : readCString testMemory a = some bs) :
    strPointer testMemory ⟨.pointer charT, none, some (.int (a:Int))⟩ =
      .ok ("(char *)" ++ hexStr a ++ " = \"" ++ bytesToString bs ++ "\"") ∧
    strPointer testMemory ⟨.pointer charT, none, some (.int 0xffff000f)⟩ =
      .ok "(char *)0xffff000f = \"\"" ∧
    strPointer testMemory ⟨.pointer charT, none, some (.int 0)⟩ =
      .ok "(char *)0x0" := by
  refine ⟨?_, rfl, rfl⟩
  have haddr : (wrap 64 (a:Int)).toNat = a := by
    rw [wrap_eq_self 64 _ (by positivity) (by exact_mod_cast ha),
      Int.toNat_natCast]
  show (if (wrap 64 (a:Int)).toNat = 0
      then (Except.ok ("(" ++ (CType.pointer charT).typeName ++ ")" ++
        hexStr ((wrap 64 (a:Int)).toNat)) : Except Err String)
      else
        match readCString testMemory ((wrap 64 (a:Int)).toNat) with
        | some bs => .ok ("(" ++ (CType.pointer charT).typeName ++ ")" ++
            hexStr ((wrap 64 (a:Int)).toNat) ++ " = \"" ++
            bytesToString bs ++ "\"")
        | none => .error .addressNotMapped) = _
  rw [haddr, if_neg h0, hread]
  rfl

/-- C9 witness: the theorem at the "hello" string of the test image. -/
theorem claim_C9_witness :
    ((0xffff0008:Nat) ≠ 0 ∧ (0xffff0008:Nat) < 2^64 ∧
     readCString testMemory 0xffff0008 =
       some [0x68, 0x65, 0x6c, 0x6c, 0x6f]) ∧
    (strPointer testMemory
        ⟨.pointer charT, none, some (.int ((0xffff0008:Nat):Int))⟩ =
      .ok ("(char *)" ++ hexStr 0xffff0008 ++ " = \"" ++
        bytesToString [0x68, 0x65, 0x6c, 0x6c, 0x6f] ++ "\"") ∧
    strPointer testMemory ⟨.pointer charT, none, some (.int 0xffff000f)⟩ =
      .ok "(char *)0xffff000f = \"\"" ∧
    strPointer testMemory ⟨.pointer charT, none, some (.int 0)⟩ =
      .ok "(char *)0x0") :=
  ⟨⟨by norm_num, by norm_num, rfl⟩,
   claim_C9_char_pointer_rendering 0xffff0008 [0x68, 0x65, 0x6c, 0x6c, 0x6f]
     (by norm_num) (by norm_num) rfl⟩

/-- C10: on a struct reference object whose type has a member named
`address_` (colliding with a built-in object attribute), attribute
access returns the object's own attribute — the integer address of the
object — not a reference object for the member; the member remains
reachable through the explicit `member_(name)` entry point. -/
theorem claim_C10_builtin_attribute_shadows_member (sname : String) (sz : Nat)
    (ms : Members) (base off : Nat) (mt : CType)
    (hfind : ms.find? "address_" = some (off, mt)) :
    getattr_ testMemory ⟨.struct sname sz ms, some base, none⟩ "address_" =
      .builtinAddress (some base) ∧
    member_ ⟨.struct sname sz ms, some base, none⟩ "address_" =
      .ok ⟨mt, some (base + off), none⟩ ∧
    getattr_ testMemory
        ⟨.struct "test" 8 (.cons "address_" 0 ulongT .nil), some 0xffff0000,
          none⟩ "address_" = .builtinAddress (some 0xffff0000) ∧
    member_ ⟨.struct "test" 8 (.cons "address_" 0 ulongT .nil),
        some 0xffff0000, none⟩ "address_" =
      .ok ⟨ulongT, some 0xffff0000, none⟩ := by
  refine ⟨rfl, ?_, rfl, rfl⟩
  simp only [member_, CType.strip, hfind]

/-- C10 witness: the theorem at the test struct with a single member
named `address_` of type `unsigned long` at offset 0. -/
theorem claim_C10_witness :
    ((Members.cons "address_" 0 ulongT .nil).find? "address_" =
      some (0, ulongT)) ∧
    (getattr_ testMemory ⟨.struct "test" 8 (.cons "address_" 0 ulongT .nil),
        some 0xffff0000, none⟩ "address_" =
      .builtinAddress (some 0xffff0000) ∧
    member_ ⟨.struct "test" 8 (.cons "address_" 0 ulongT .nil),
        some 0xffff0000, none⟩ "address_" =
      .ok ⟨ulongT, some (0xffff0000 + 0), none⟩ ∧
    getattr_ testMemory
        ⟨.struct "test" 8 (.cons "address_" 0 ulongT .nil), some 0xffff0000,
          none⟩ "address_" = .builtinAddress (some 0xffff0000) ∧
    member_ ⟨.struct "test" 8 (.cons "address_" 0 ulongT .nil),
        some 0xffff0000, none⟩ "address_" =
      .ok ⟨ulongT, some 0xffff0000, none⟩) :=
  ⟨by decide,
   claim_C10_builtin_attribute_shadows_member "test" 8
     (.cons "address_" 0 ulongT .nil) 0xffff0000 0 ulongT (by decide)⟩

end Drgn
